import Mathlib

/-!
Verification of the dash-agent repository against its specification.

Part 1 embeds the SSE log-streaming client (`LogStreamClient`) described in
spec.md §3–§8.  The repository's source tree contains only generated browser
test scripts; the client itself is not present, so its data model and state
machine are modelled directly from the spec's words (each such definition says
so in its doc comment).

Part 2 embeds the structure of the Python test scripts under
`src/packages/dashboard/testsprite_tests/`: their name bindings, the shape of
`run_test` (a `try:` body of navigation/click/fill/assert steps followed by a
`finally:` block releasing browser resources), and Python's exception
semantics for the final assertion blocks.
-/

namespace DashAgent

/-! ## Part 1: the LogStreamClient model (from spec.md) -/

/-- Modelled from the spec: `state` of a Connection is one of `idle`,
`connecting`, `open`, `reconnecting`, `closed_by_user` (spec §3).  The
spec's `open` is rendered `opened` because `open` is a Lean keyword. -/
inductive ConnState
  | idle
  | connecting
  | opened
  | reconnecting
  | closedByUser
deriving DecidableEq

/-- Modelled from the spec: `kind` of a LogEvent is one of `log_line`,
`status_change`, `timeout_warning`, `error`, `heartbeat` (spec §3). -/
inductive EventKind
  | log_line
  | status_change
  | timeout_warning
  | error
  | heartbeat
deriving DecidableEq

/-- Modelled from the spec: kind-specific payload data of a LogEvent
(text line, new status, remaining-time estimate, error message; spec §3). -/
inductive Payload
  | text (line : String)
  | status (newStatus : String)
  | remaining (remainingSeconds : Nat)
  | message (msg : String)
  | empty
deriving DecidableEq

/-- Modelled from the spec: a LogEvent is a single server-emitted record with
a monotonically increasing `sequence` used for ordering and dedup, a `kind`
and a kind-specific `payload` (spec §3). -/
structure LogEvent where
  sequence : Nat
  kind : EventKind
  payload : Payload
deriving DecidableEq

/-- Modelled from the spec: a Connection is one logical subscription to a
task's event stream, with an immutable `taskId`, a `state`, a `lastEventId`
cursor used to resume without duplication, and `retryDelayMs` fixed at
3000 ms (spec §3).  `retryAt` records the absolute time at which a pending
scheduled retry timer fires (`none` when no retry is pending); the spec's
"pending timers" are represented by this field. -/
structure Connection where
  taskId : String
  state : ConnState
  lastEventId : Nat
  retryDelayMs : Nat
  retryAt : Option Nat
deriving DecidableEq

/-- Modelled from the spec: the inputs that drive the §4 state machine —
`connect()`, a successful handshake (first event or explicit open signal),
a received server event, a transport failure / server-initiated close /
missed-heartbeat timeout (optionally surfaced to the subscriber as an
`error`-kind LogEvent with a human-readable message, spec §4.1), the fixed
retry timer elapsing, `disconnect()` and `reconnectNow()`. -/
inductive Input
  | connectCall
  | handshakeOk
  | eventReceived (e : LogEvent)
  | transportFailure (errMsg : Option String)
  | retryTimerFires
  | disconnectCall
  | reconnectNowCall
deriving DecidableEq

/-- Modelled from the spec: `connect(taskId, fromSequence?)` opens a new
stream starting at `fromSequence` (or from the beginning), entering the
`connecting` state with the reconnect delay fixed at 3000 ms (spec §4.1). -/
def connect (taskId : String) (fromSequence : Option Nat) : Connection :=
  { taskId := taskId
    state := .connecting
    lastEventId := fromSequence.getD 0
    retryDelayMs := 3000
    retryAt := none }

/-- Modelled from the spec: the ordering/dedup gate — any event with
`sequence <= lastEventId` already delivered is discarded before invoking the
subscriber; a delivered event advances the `lastEventId` cursor (spec §4.1). -/
def deliverIfNew (c : Connection) (e : LogEvent) : Connection × List LogEvent :=
  if e.sequence ≤ c.lastEventId then (c, [])
  else ({ c with lastEventId := e.sequence }, [e])

/-- Modelled from the spec: on transport failure the client transitions to
`reconnecting` and schedules a retry after the fixed delay (spec §4.1),
optionally surfacing an `error`-kind LogEvent carrying a human-readable
message (spec §4.1 failure handling).  The spec does not fix the `sequence`
of such a synthesized event; it is taken as the next cursor value so that
the §3 invariant (nondecreasing, duplicate-free delivery) holds on every
trace. -/
def onFailure (c : Connection) (now : Nat) (errMsg : Option String) :
    Connection × List LogEvent :=
  let c' := { c with state := ConnState.reconnecting,
                     retryAt := some (now + c.retryDelayMs) }
  match errMsg with
  | none => (c', [])
  | some m =>
      ({ c' with lastEventId := c.lastEventId + 1 },
       [{ sequence := c.lastEventId + 1, kind := .error, payload := .message m }])

/-- Modelled from the spec: the §4 state machine.  One step consumes an input
at absolute time `now` and returns the updated Connection together with the
list of LogEvents delivered to the `onEvent` subscriber during that step.
Transitions: `idle → connecting` on `connect()`; `connecting → open` on a
successful handshake (first event or explicit open signal); `connecting`/
`open → reconnecting` on transport failure or server close, scheduling a
retry at `now + retryDelayMs`; `reconnecting → connecting` when the scheduled
timer fires; any state `→ closed_by_user` on `disconnect()` (terminal, all
pending timers cancelled); `reconnecting`/`connecting → connecting`
immediately on `reconnectNow()`, cancelling any pending scheduled retry.
Received events pass through the `deliverIfNew` dedup gate; errors are
absorbed, never thrown (the result type has no error case). -/
def handle (c : Connection) (now : Nat) (i : Input) : Connection × List LogEvent :=
  match i with
  | .disconnectCall => ({ c with state := .closedByUser, retryAt := none }, [])
  | .connectCall =>
      if c.state = .idle then ({ c with state := .connecting }, []) else (c, [])
  | .handshakeOk =>
      if c.state = .connecting then
        ({ c with state := .opened, retryAt := none }, [])
      else (c, [])
  | .eventReceived e =>
      if c.state = .connecting then
        deliverIfNew { c with state := .opened, retryAt := none } e
      else if c.state = .opened then
        deliverIfNew c e
      else (c, [])
  | .transportFailure errMsg =>
      if c.state = .connecting ∨ c.state = .opened then
        onFailure c now errMsg
      else (c, [])
  | .retryTimerFires =>
      if c.state = .reconnecting ∧ c.retryAt = some now then
        ({ c with state := .connecting, retryAt := none }, [])
      else (c, [])
  | .reconnectNowCall =>
      if c.state = .closedByUser then (c, [])
      else ({ c with state := .connecting, retryAt := none }, [])

/-- Modelled from the spec: a whole session is a sequence of timed inputs fed
to the state machine; `run` returns the final Connection and the concatenated
stream of events delivered to the subscriber, in delivery order. -/
def run (c : Connection) : List (Nat × Input) → Connection × List LogEvent
  | [] => (c, [])
  | ti :: rest =>
      let s := handle c ti.1 ti.2
      let r := run s.1 rest
      (r.1, s.2 ++ r.2)

/-! ### Delivery-ordering lemmas -/

/-- The `lastEventId` cursor never decreases across a step. -/
theorem handle_lastEventId_le (c : Connection) (now : Nat) (i : Input) :
    c.lastEventId ≤ (handle c now i).1.lastEventId := by
  cases i
  case transportFailure msg =>
    cases msg <;> simp only [handle, onFailure] <;> split_ifs <;> simp
  case eventReceived e =>
    simp only [handle, deliverIfNew]
    split_ifs <;> simp_all <;> omega
  all_goals simp only [handle] <;> first | (split_ifs <;> simp) | simp

/-- Every event delivered in one step lies strictly above the previous cursor
and at or below the new cursor. -/
theorem handle_mem_delivered {c : Connection} {now : Nat} {i : Input} {e : LogEvent}
    (h : e ∈ (handle c now i).2) :
    c.lastEventId < e.sequence ∧ e.sequence ≤ (handle c now i).1.lastEventId := by
  cases i
  case transportFailure msg =>
    cases msg <;> simp only [handle, onFailure] at h ⊢ <;>
      split_ifs at h ⊢ <;> simp_all <;> omega
  case eventReceived e₀ =>
    simp only [handle, deliverIfNew] at h ⊢
    split_ifs at h ⊢ <;> simp_all <;> omega
  all_goals simp only [handle] at h ⊢ <;>
    first | (split_ifs at h ⊢ <;> simp_all) | simp_all

/-- A single step delivers at most one event. -/
theorem handle_delivered_subsingleton (c : Connection) (now : Nat) (i : Input) :
    (handle c now i).2 = [] ∨ ∃ e, (handle c now i).2 = [e] := by
  cases i
  case transportFailure msg =>
    cases msg <;> simp only [handle, onFailure] <;> split_ifs <;> simp
  case eventReceived e =>
    simp only [handle, deliverIfNew]
    split_ifs <;> simp
  all_goals simp only [handle] <;> first | (split_ifs <;> simp) | simp

/-- The cursor never decreases across a whole session. -/
theorem run_lastEventId_le (c : Connection) (tr : List (Nat × Input)) :
    c.lastEventId ≤ (run c tr).1.lastEventId := by
  induction tr generalizing c with
  | nil => simp [run]
  | cons ti rest ih =>
      simp only [run]
      exact le_trans (handle_lastEventId_le c ti.1 ti.2) (ih _)

/-- Every event delivered during a session lies strictly above the starting
cursor and at or below the final cursor. -/
theorem run_mem_delivered {c : Connection} {tr : List (Nat × Input)} {e : LogEvent}
    (h : e ∈ (run c tr).2) :
    c.lastEventId < e.sequence ∧ e.sequence ≤ (run c tr).1.lastEventId := by
  induction tr generalizing c with
  | nil => simp [run] at h
  | cons ti rest ih =>
      simp only [run, List.mem_append] at h ⊢
      rcases h with h | h
      · obtain ⟨h1, h2⟩ := handle_mem_delivered h
        exact ⟨h1, le_trans h2 (run_lastEventId_le _ _)⟩
      · obtain ⟨h1, h2⟩ := ih h
        exact ⟨lt_of_le_of_lt (handle_lastEventId_le c ti.1 ti.2) h1, h2⟩

/-- Sequence values of the delivered stream are pairwise strictly increasing. -/
theorem run_delivered_pairwise (c : Connection) (tr : List (Nat × Input)) :
    ((run c tr).2).Pairwise (fun a b => a.sequence < b.sequence) := by
  induction tr generalizing c with
  | nil => simp [run]
  | cons ti rest ih =>
      simp only [run]
      refine List.pairwise_append.mpr ⟨?_, ih _, ?_⟩
      · rcases handle_delivered_subsingleton c ti.1 ti.2 with h | ⟨e, h⟩ <;> simp [h]
      · intro a ha b hb
        have h1 := (handle_mem_delivered ha).2
        have h2 := (run_mem_delivered hb).1
        omega

/-- C1: for every sequence of events delivered to a subscriber registered via
`onEvent` within one logical session of a Connection (a `run` from `connect`),
the events' `sequence` values are nondecreasing and no two delivered events
share the same `sequence` value. -/
theorem delivered_sequences_nondecreasing_and_distinct
    (taskId : String) (fromSequence : Option Nat) (tr : List (Nat × Input)) :
    ((run (connect taskId fromSequence) tr).2).Chain'
        (fun a b => a.sequence ≤ b.sequence)
    ∧ ((run (connect taskId fromSequence) tr).2).Pairwise
        (fun a b => a.sequence ≠ b.sequence) := by
  have hp := run_delivered_pairwise (connect taskId fromSequence) tr
  refine ⟨List.Pairwise.chain' ?_, ?_⟩
  · exact hp.imp fun h => Nat.le_of_lt h
  · exact hp.imp fun h => Nat.ne_of_lt h

/-! ### Retry timing and cycles -/

/-- The reconnect delay configuration never changes across a step. -/
theorem handle_retryDelayMs (c : Connection) (now : Nat) (i : Input) :
    (handle c now i).1.retryDelayMs = c.retryDelayMs := by
  cases i
  case transportFailure msg =>
    cases msg <;> simp only [handle, onFailure] <;> split_ifs <;> simp
  case eventReceived e =>
    simp only [handle, deliverIfNew]
    split_ifs <;> simp
  all_goals simp only [handle] <;> first | (split_ifs <;> simp) | simp

/-- One full failure/recovery cycle starting at time `t`: a transport failure,
the scheduled retry firing after the fixed delay, and a successful
re-handshake. -/
def failCycle (c : Connection) (t : Nat) : Connection :=
  let c1 := (handle c t (.transportFailure none)).1
  let c2 := (handle c1 (t + c.retryDelayMs) .retryTimerFires).1
  (handle c2 (t + c.retryDelayMs) .handshakeOk).1

/-- `n` consecutive failure/recovery cycles, each starting some time after
the previous one recovered. -/
def iterCycles : Connection → Nat → Nat → Connection
  | c, 0, _ => c
  | c, n + 1, t => iterCycles (failCycle c t) n (t + c.retryDelayMs + 1000)

/-- A failure/recovery cycle returns an open connection to `open`, with the
reconnect delay unchanged. -/
theorem failCycle_opened {c : Connection} (t : Nat) (h : c.state = .opened) :
    (failCycle c t).state = .opened
    ∧ (failCycle c t).retryDelayMs = c.retryDelayMs := by
  simp [failCycle, handle, onFailure, h]

/-- Arbitrarily many failure/recovery cycles keep the connection recovering
to `open`, with the reconnect delay unchanged throughout. -/
theorem iterCycles_opened {c : Connection} (n t : Nat) (h : c.state = .opened) :
    (iterCycles c n t).state = .opened
    ∧ (iterCycles c n t).retryDelayMs = c.retryDelayMs := by
  induction n generalizing c t with
  | zero => exact ⟨h, rfl⟩
  | succ n ih =>
      simp only [iterCycles]
      obtain ⟨h1, h2⟩ := failCycle_opened (c := c) t h
      obtain ⟨h3, h4⟩ := ih (t := t + c.retryDelayMs + 1000) h1
      exact ⟨h3, h4.trans h2⟩

/-- C2: on a transport failure or server-initiated close of an open
connection the client goes `open → reconnecting`, the retry is scheduled
exactly `3000` ms later, and when that timer fires the client goes
`reconnecting → connecting`; the delay configuration is preserved by every
step (it never backs off), and across arbitrarily many repeated
failure/recovery cycles the client keeps retrying with the same fixed
3000 ms delay (no maximum-attempts ceiling). -/
theorem failure_recovery_timing_fixed_3000
    (c : Connection) (t : Nat) (hs : c.state = .opened)
    (hd : c.retryDelayMs = 3000) :
    ((handle c t (.transportFailure none)).1.state = .reconnecting
      ∧ (handle c t (.transportFailure none)).1.retryAt = some (t + 3000)
      ∧ (handle (handle c t (.transportFailure none)).1 (t + 3000)
            .retryTimerFires).1.state = .connecting)
    ∧ (∀ (c' : Connection) (now : Nat) (i : Input),
        (handle c' now i).1.retryDelayMs = c'.retryDelayMs)
    ∧ (∀ n : Nat, (iterCycles c n t).state = .opened
        ∧ (iterCycles c n t).retryDelayMs = 3000) := by
  refine ⟨?_, fun c' now i => handle_retryDelayMs c' now i, fun n => ?_⟩
  · simp [handle, onFailure, hs, hd]
  · obtain ⟨h1, h2⟩ := iterCycles_opened (c := c) n t hs
    exact ⟨h1, h2.trans hd⟩

/-- Concrete connection used by the witnesses: `connect("T1")`. -/
def connT1 : Connection := connect "T1" none

/-- `connT1` after a successful handshake: an open connection. -/
def openedT1 : Connection := (handle connT1 0 .handshakeOk).1

theorem failure_recovery_timing_witness :
    (handle openedT1 5 (.transportFailure none)).1.state = .reconnecting
    ∧ (iterCycles openedT1 3 5).state = .opened :=
  ⟨(failure_recovery_timing_fixed_3000 openedT1 5 (by decide) (by decide)).1.1,
   ((failure_recovery_timing_fixed_3000 openedT1 5 (by decide) (by decide)).2.2 3).1⟩

/-! ### Reconnect resumption and dedup -/

/-- A plain `log_line` event with the given sequence number. -/
def seqEvent (n : Nat) : LogEvent :=
  { sequence := n, kind := .log_line, payload := .text "" }

/-- The §8 scenario trace: handshake, events 1..5, a drop, the 3000 ms retry
firing, a re-handshake, and the server resuming from `lastEventId = 5` with
events 6..10. -/
def resumeTrace : List (Nat × Input) :=
  [(0, .handshakeOk),
   (10, .eventReceived (seqEvent 1)), (11, .eventReceived (seqEvent 2)),
   (12, .eventReceived (seqEvent 3)), (13, .eventReceived (seqEvent 4)),
   (14, .eventReceived (seqEvent 5)),
   (100, .transportFailure none),
   (3100, .retryTimerFires),
   (3100, .handshakeOk),
   (3200, .eventReceived (seqEvent 6)), (3201, .eventReceived (seqEvent 7)),
   (3202, .eventReceived (seqEvent 8)), (3203, .eventReceived (seqEvent 9)),
   (3204, .eventReceived (seqEvent 10))]

/-- C3: an event whose `sequence` is at or below the `lastEventId` cursor is
discarded before the `onEvent` subscriber is invoked (the step delivers
nothing and leaves the connection unchanged); and in the §8 scenario —
events 1..5, a drop, the retry after 3000 ms, and the server resuming from
`lastEventId = 5` with events 6..10 — the subscriber receives exactly the
events with sequences 1..10, once each, in order. -/
theorem reconnect_never_redelivers_up_to_lastEventId :
    (∀ (c : Connection) (now : Nat) (e : LogEvent),
        c.state = .opened → e.sequence ≤ c.lastEventId →
        handle c now (.eventReceived e) = (c, []))
    ∧ ((run connT1 resumeTrace).2).map LogEvent.sequence
        = [1, 2, 3, 4, 5, 6, 7, 8, 9, 10] := by
  constructor
  · intro c now e hs hle
    simp [handle, deliverIfNew, hs, hle]
  · decide

/-- `openedT1` with the resume cursor at 5. -/
def openedT1at5 : Connection := { openedT1 with lastEventId := 5 }

theorem reconnect_never_redelivers_witness :
    handle openedT1at5 0 (.eventReceived (seqEvent 3)) = (openedT1at5, []) :=
  reconnect_never_redelivers_up_to_lastEventId.1 openedT1at5 0 (seqEvent 3)
    (by decide) (by decide)

/-! ### disconnect and reconnectNow -/

/-- C4: `disconnect()` in any state moves the Connection to `closed_by_user`
with every pending timer cancelled (`retryAt = none`); `closed_by_user` is
terminal — no input ever changes the state again or delivers an event (in
particular a retry that was pending never fires a later `connecting`
transition) — and `disconnect()` is idempotent. -/
theorem disconnect_terminal_and_idempotent :
    (∀ (c : Connection) (now : Nat),
        (handle c now .disconnectCall).1.state = .closedByUser
        ∧ (handle c now .disconnectCall).1.retryAt = none)
    ∧ (∀ (c : Connection) (now : Nat) (i : Input), c.state = .closedByUser →
        (handle c now i).1.state = .closedByUser ∧ (handle c now i).2 = [])
    ∧ (∀ (c : Connection) (now now' : Nat),
        handle (handle c now .disconnectCall).1 now' .disconnectCall
          = ((handle c now .disconnectCall).1, []))
    ∧ (∀ (c : Connection) (now now' : Nat),
        handle (handle c now .disconnectCall).1 now' .retryTimerFires
          = ((handle c now .disconnectCall).1, [])) := by
  refine ⟨fun c now => ?_, fun c now i hs => ?_,
    fun c now now' => ?_, fun c now now' => ?_⟩
  · simp [handle]
  · cases i
    case transportFailure msg => cases msg <;> simp [handle, onFailure, hs]
    all_goals simp [handle, deliverIfNew, hs]
  · simp [handle]
  · simp [handle]

/-- `openedT1` after `disconnect()`. -/
def closedT1 : Connection := (handle openedT1 7 .disconnectCall).1

theorem disconnect_terminal_witness :
    (handle closedT1 9 .retryTimerFires).1.state = .closedByUser
    ∧ (handle closedT1 9 .retryTimerFires).2 = [] :=
  disconnect_terminal_and_idempotent.2.1 closedT1 9 .retryTimerFires (by decide)

/-- C5: `reconnectNow()` called in `reconnecting` or `connecting` moves the
Connection immediately to `connecting` with the pending scheduled retry
cancelled (`retryAt = none`), so that a later timer firing is a no-op (no
duplicate reconnection attempt); and in every non-terminal state it forces
the `connecting` state at once. -/
theorem reconnectNow_immediate_and_cancels_retry :
    (∀ (c : Connection) (now : Nat),
        c.state = .reconnecting ∨ c.state = .connecting →
        (handle c now .reconnectNowCall).1.state = .connecting
        ∧ (handle c now .reconnectNowCall).1.retryAt = none
        ∧ ∀ t : Nat,
            handle (handle c now .reconnectNowCall).1 t .retryTimerFires
              = ((handle c now .reconnectNowCall).1, []))
    ∧ (∀ (c : Connection) (now : Nat), c.state ≠ .closedByUser →
        (handle c now .reconnectNowCall).1.state = .connecting) := by
  constructor
  · intro c now hs
    rcases hs with hs | hs <;> simp [handle, hs]
  · intro c now hs
    simp [handle, hs]

/-- `openedT1` after a transport failure at time 100: a reconnecting
connection with a retry pending at time 3100. -/
def reconnT1 : Connection := (handle openedT1 100 (.transportFailure none)).1

theorem reconnectNow_witness :
    (handle reconnT1 200 .reconnectNowCall).1.state = .connecting
    ∧ (handle reconnT1 200 .reconnectNowCall).1.retryAt = none :=
  ⟨(reconnectNow_immediate_and_cancels_retry.1 reconnT1 200 (Or.inl (by decide))).1,
   (reconnectNow_immediate_and_cancels_retry.1 reconnT1 200 (Or.inl (by decide))).2.1⟩

/-! ### Event parsing and error absorption -/

/-- Modelled from the spec: an inbound wire event — an identifier usable as
`lastEventId`, a named event kind, and a payload field (spec §6). -/
structure RawEvent where
  id : Nat
  kindField : String
  dataField : String
deriving DecidableEq

/-- Modelled from the spec: the §7 error taxonomy relevant to the receive
path — `ConnectionError` for transport-level failures and `ProtocolError`
for malformed event payloads (unparseable data, unknown `kind`). -/
inductive ClientError
  | connectionError (msg : String)
  | protocolError (msg : String)
deriving DecidableEq

/-- Modelled from the spec: the named event kinds of §3; any other name is
an unknown `kind` (a `ProtocolError`, spec §7). -/
def kindOfString (s : String) : Option EventKind :=
  if s = "log_line" then some .log_line
  else if s = "status_change" then some .status_change
  else if s = "timeout_warning" then some .timeout_warning
  else if s = "error" then some .error
  else if s = "heartbeat" then some .heartbeat
  else none

/-- Helper for `parseNat`: accumulates decimal digits, failing on any
non-digit character. -/
def parseNatAux : List Char → Nat → Option Nat
  | [], acc => some acc
  | ch :: rest, acc =>
      if '0' ≤ ch ∧ ch ≤ '9' then
        parseNatAux rest (acc * 10 + (ch.toNat - '0'.toNat))
      else none

/-- Modelled from the spec: decimal parsing of the remaining-seconds payload
field; `none` (an unparseable payload, spec §7) on an empty or non-numeric
string. -/
def parseNat (s : String) : Option Nat :=
  match s.toList with
  | [] => none
  | l => parseNatAux l 0

/-- Modelled from the spec: parsing a wire event into a LogEvent.  An unknown
`kind` or an unparseable `timeout_warning` remaining-time payload is a
`ProtocolError` (spec §7); otherwise the payload is preserved unaltered into
the kind-specific `Payload` (spec §4.1). -/
def parseEvent (r : RawEvent) : Except ClientError LogEvent :=
  match kindOfString r.kindField with
  | none => .error (.protocolError ("unknown kind: " ++ r.kindField))
  | some k =>
      match k with
      | .timeout_warning =>
          match parseNat r.dataField with
          | none => .error (.protocolError "unparseable payload")
          | some n => .ok { sequence := r.id, kind := k, payload := .remaining n }
      | .log_line => .ok { sequence := r.id, kind := k, payload := .text r.dataField }
      | .status_change =>
          .ok { sequence := r.id, kind := k, payload := .status r.dataField }
      | .error => .ok { sequence := r.id, kind := k, payload := .message r.dataField }
      | .heartbeat => .ok { sequence := r.id, kind := k, payload := .empty }

/-- Modelled from the spec: the client's receive path.  A malformed event is
logged and skipped without breaking the stream (spec §7); a well-formed event
is fed to the state machine.  The result type has no error case: nothing on
this path is propagated to the subscriber as a thrown exception (spec §7
propagation policy). -/
def onRawEvent (c : Connection) (now : Nat) (r : RawEvent) :
    Connection × List LogEvent :=
  match parseEvent r with
  | .error _ => (c, [])
  | .ok e => handle c now (.eventReceived e)

/-- C6: no transport or protocol error reaches the subscriber as a thrown
exception.  A protocol error (malformed payload) is absorbed: the offending
event is skipped and the connection is untouched.  A transport failure is
absorbed into the `reconnecting` state transition plus, optionally, a single
`error`-kind LogEvent carrying the human-readable message; with no message
attached, nothing at all is delivered.  (`onRawEvent` and `handle` return
plain results, not `Except`, so the subscriber-facing API has no exception
case by construction.) -/
theorem errors_absorbed_never_thrown :
    (∀ (c : Connection) (now : Nat) (r : RawEvent) (err : ClientError),
        parseEvent r = .error err → onRawEvent c now r = (c, []))
    ∧ (∀ (c : Connection) (now : Nat) (msg : Option String),
        c.state = .opened →
        (handle c now (.transportFailure msg)).1.state = .reconnecting
        ∧ ∀ e ∈ (handle c now (.transportFailure msg)).2,
            e.kind = .error ∧ ∃ m, msg = some m ∧ e.payload = .message m) := by
  constructor
  · intro c now r err hp
    simp [onRawEvent, hp]
  · intro c now msg hs
    cases msg <;> simp [handle, onFailure, hs]

/-- A wire event with an unknown kind name. -/
def bogusRaw : RawEvent := { id := 1, kindField := "bogus", dataField := "x" }

theorem errors_absorbed_witness :
    onRawEvent openedT1 3 bogusRaw = (openedT1, [])
    ∧ (handle openedT1 4 (.transportFailure (some "boom"))).1.state
        = .reconnecting :=
  ⟨errors_absorbed_never_thrown.1 openedT1 3 bogusRaw
      (.protocolError ("unknown kind: " ++ "bogus")) rfl,
   (errors_absorbed_never_thrown.2 openedT1 4 (some "boom") (by decide)).1⟩

/-! ### timeout_warning delivery -/

/-- Concrete connection for the §8 timeout-warning scenario: `connect("T2")`
followed by a successful handshake. -/
def openedT2 : Connection := (handle (connect "T2" none) 0 .handshakeOk).1

/-- The §8 scenario wire event: a `timeout_warning` with payload
`{remainingSeconds: 120}`. -/
def timeoutRaw : RawEvent :=
  { id := 1, kindField := "timeout_warning", dataField := "120" }

/-- C7: a `timeout_warning` event received on an open connection is normal
data: it is delivered to the `onEvent` subscriber exactly as received — the
very event, `kind` and payload unaltered — and causes no state transition
(the connection stays `open`).  In the §8 scenario, the wire event with
payload `{remainingSeconds: 120}` reaches the subscriber with
`kind = timeout_warning` and payload `remaining 120`. -/
theorem timeout_warning_delivered_unaltered :
    (∀ (c : Connection) (now : Nat) (e : LogEvent),
        c.state = .opened → e.kind = .timeout_warning →
        c.lastEventId < e.sequence →
        handle c now (.eventReceived e)
            = ({ c with lastEventId := e.sequence }, [e])
        ∧ (handle c now (.eventReceived e)).1.state = .opened)
    ∧ (onRawEvent openedT2 5 timeoutRaw).2
        = [{ sequence := 1, kind := .timeout_warning, payload := .remaining 120 }]
    ∧ (onRawEvent openedT2 5 timeoutRaw).1.state = .opened := by
  constructor
  · intro c now e hs hk hlt
    have hnle : ¬ e.sequence ≤ c.lastEventId := by omega
    refine ⟨by simp [handle, deliverIfNew, hs, hnle], ?_⟩
    simp [handle, deliverIfNew, hs, hnle]
  · exact ⟨by decide, by decide⟩

theorem timeout_warning_witness :
    handle openedT2 5
        (.eventReceived
          { sequence := 1, kind := .timeout_warning, payload := .remaining 120 })
      = ({ openedT2 with lastEventId := 1 },
         [{ sequence := 1, kind := .timeout_warning, payload := .remaining 120 }]) :=
  (timeout_warning_delivered_unaltered.1 openedT2 5
      { sequence := 1, kind := .timeout_warning, payload := .remaining 120 }
      (by decide) (by decide) (by decide)).1

/-! ## Part 2: the Python test scripts under testsprite_tests/ -/

/-- One statement of a script's `try:` body.  `startPlaywright`,
`launchBrowser` and `newContext` are the assignments
`pw = await async_api.async_playwright().start()`,
`browser = await pw.chromium.launch(...)` and
`context = await browser.new_context()`; `goto`, `click` and `fill` are the
page interactions (each may raise a Playwright error); `waitLoadState` is
the `wait_for_load_state` block whose errors the script swallows with
`except async_api.Error: pass`; `waitTimeout` and `sleepSecs` are the timed
waits; `assertVisible text failMsg` is the final assertion block
`try: await expect(frame.locator(text).first).to_be_visible(...)
except AssertionError: raise AssertionError(failMsg)`. -/
inductive Step
  | startPlaywright
  | launchBrowser
  | newContext
  | newPage
  | goto (url : String)
  | waitLoadState
  | waitTimeout (ms : Nat)
  | click (xpath : String)
  | fill (xpath : String) (value : String)
  | sleepSecs (n : Nat)
  | assertVisible (text : String) (failMsg : String)
deriving DecidableEq

/-- Whether a step is the final assertion block. -/
def Step.isAssert : Step → Bool
  | .assertVisible _ _ => true
  | _ => false

/-- A Python exception escaping a statement: a Playwright/transport error
from a page interaction, an `AssertionError`, or a `NameError` from
evaluating an unbound name. -/
inductive PyExc
  | playwrightError
  | assertionError (msg : String)
  | nameError (name : String)
deriving DecidableEq

/-- Which of the three browser resources of a script (`pw`, `browser`,
`context`, all initialised to `None`) have been successfully created. -/
structure Resources where
  pw : Bool
  browser : Bool
  context : Bool
deriving DecidableEq

/-- The state of the three resource variables at the top of `run_test`:
`pw = None; browser = None; context = None`. -/
def Resources.init : Resources := { pw := false, browser := false, context := false }

/-- Python name resolution inside the assertion block's `try:` body: the
expression `expect(...)` first resolves the name `expect`; an unbound name
raises `NameError`.  When the name is bound, the Playwright locator
assertion either passes or raises `AssertionError`; `visible` says whether
the expected text is visible on the page under test. -/
def assertBlockBody (env : List String) (visible : Bool) : Option PyExc :=
  if "expect" ∈ env then
    if visible then none else some (.assertionError "to_be_visible timed out")
  else some (.nameError "expect")

/-- The `except AssertionError:` handler: it catches exactly
`AssertionError`, re-raising it with the script's failure message; every
other exception (in particular `NameError`) propagates uncaught. -/
def catchAssertionError (body : Option PyExc) (failMsg : String) : Option PyExc :=
  match body with
  | some (.assertionError _) => some (.assertionError failMsg)
  | o => o

/-- One statement executed against resource state `r`.  `ok` is the
environment's verdict for this statement (whether the navigation, click,
fill or locator assertion succeeds); timed waits and the error-swallowing
`wait_for_load_state` block never raise.  Returns the updated resource state
and the exception escaping the statement, if any. -/
def runStep (env : List String) (ok : Bool) (r : Resources) :
    Step → Resources × Option PyExc
  | .startPlaywright =>
      if ok then ({ r with pw := true }, none) else (r, some .playwrightError)
  | .launchBrowser =>
      if ok then ({ r with browser := true }, none) else (r, some .playwrightError)
  | .newContext =>
      if ok then ({ r with context := true }, none) else (r, some .playwrightError)
  | .newPage => if ok then (r, none) else (r, some .playwrightError)
  | .goto _ => if ok then (r, none) else (r, some .playwrightError)
  | .waitLoadState => (r, none)
  | .waitTimeout _ => (r, none)
  | .click _ => if ok then (r, none) else (r, some .playwrightError)
  | .fill _ _ => if ok then (r, none) else (r, some .playwrightError)
  | .sleepSecs _ => (r, none)
  | .assertVisible _ failMsg =>
      (r, catchAssertionError (assertBlockBody env ok) failMsg)

/-- The `try:` body: statements run in order, numbered from `k` so that the
oracle `oracle : Nat → Bool` fixes each statement's verdict; the first
escaping exception aborts the rest of the body. -/
def runSteps (env : List String) (oracle : Nat → Bool) :
    Nat → Resources → List Step → Resources × Option PyExc
  | _, r, [] => (r, none)
  | k, r, s :: rest =>
      let t := runStep env (oracle k) r s
      match t.2 with
      | none => runSteps env oracle (k + 1) t.1 rest
      | some e => (t.1, some e)

/-- The close operations of the shared `finally:` block. -/
inductive CloseAction
  | closeContext
  | closeBrowser
  | stopPlaywright
deriving DecidableEq, BEq

/-- The `finally:` block shared verbatim by all 22 scripts:
`if context: await context.close()`, then `if browser: await
browser.close()`, then `if pw: await pw.stop()` — each close guarded by a
None check, in that order. -/
def finallyBlock (r : Resources) : List CloseAction :=
  (if r.context then [CloseAction.closeContext] else [])
    ++ (if r.browser then [CloseAction.closeBrowser] else [])
    ++ (if r.pw then [CloseAction.stopPlaywright] else [])

/-- A whole `run_test` call: the `try:` body from the initial resource
state, then the `finally:` block on whatever resources exist at that point
(the same on the success path and on every exception path).  Returns the
final resource state, the exception escaping `run_test` (if any), and the
close operations the `finally:` block performed. -/
def runTest (env : List String) (oracle : Nat → Bool) (steps : List Step) :
    Resources × Option PyExc × List CloseAction :=
  let t := runSteps env oracle 0 Resources.init steps
  (t.1, t.2, finallyBlock t.1)

/-- Whether a statement can complete without an exception under a favourable
environment: every navigation/click/fill can, but the assertion block
cannot unless the name `expect` is bound. -/
def stepMaySucceed (env : List String) : Step → Bool
  | .assertVisible _ _ => decide ("expect" ∈ env)
  | _ => true

/-! ### Script-semantics lemmas -/

/-- If every statement's verdict is favourable and every statement can
succeed, the `try:` body completes without an exception. -/
theorem runSteps_all_ok (env : List String) (oracle : Nat → Bool)
    (steps : List Step) (k : Nat) (r : Resources)
    (hok : ∀ j, j < k + steps.length → oracle j = true)
    (hgood : ∀ s ∈ steps, stepMaySucceed env s = true) :
    (runSteps env oracle k r steps).2 = none := by
  induction steps generalizing k r with
  | nil => simp [runSteps]
  | cons s rest ih =>
      have hk : oracle k = true := hok k (by simp)
      have hs : stepMaySucceed env s = true := hgood s (by simp)
      have hrest : ∀ s' ∈ rest, stepMaySucceed env s' = true :=
        fun s' h => hgood s' (by simp [h])
      have hok' : ∀ j, j < (k + 1) + rest.length → oracle j = true := by
        intro j hj
        exact hok j (by simp at hj ⊢; omega)
      have hstep : (runStep env (oracle k) r s).2 = none := by
        rw [hk]
        cases s
        case assertVisible t m =>
          have hmem : "expect" ∈ env := by
            have hd := hs
            simp only [stepMaySucceed, decide_eq_true_eq] at hd
            exact hd
          simp [runStep, assertBlockBody, catchAssertionError, hmem]
        all_goals simp [runStep]
      simp only [runSteps, hstep]
      exact ih _ _ hok' hrest

/-- If some statement of the `try:` body can never succeed, the body never
completes without an exception, whatever the environment does. -/
theorem runSteps_never_ok (env : List String) (oracle : Nat → Bool)
    (steps : List Step) (k : Nat) (r : Resources)
    (hbad : ∃ s ∈ steps, stepMaySucceed env s = false) :
    (runSteps env oracle k r steps).2 ≠ none := by
  induction steps generalizing k r with
  | nil => simp at hbad
  | cons s rest ih =>
      obtain ⟨s', hs', hb⟩ := hbad
      rcases List.mem_cons.mp hs' with rfl | hmem
      · cases s'
        case assertVisible t m =>
          have hmem : ¬ ("expect" ∈ env) := by
            intro hc
            simp [stepMaySucceed, hc] at hb
          simp [runSteps, runStep, assertBlockBody, catchAssertionError, hmem]
        all_goals simp [stepMaySucceed] at hb
      · simp only [runSteps]
        rcases ht : (runStep env (oracle k) r s).2 with _ | e
        · simp only [ht]
          exact ih _ _ ⟨s', hmem, hb⟩
        · simp [ht]

/-- Each close operation of the `finally:` block runs exactly once for a
created resource and not at all otherwise, and the block is a sublist of
the fixed order context, browser, Playwright. -/
theorem finallyBlock_count (r : Resources) :
    (finallyBlock r).count .closeContext = (if r.context then 1 else 0)
    ∧ (finallyBlock r).count .closeBrowser = (if r.browser then 1 else 0)
    ∧ (finallyBlock r).count .stopPlaywright = (if r.pw then 1 else 0)
    ∧ (finallyBlock r).Sublist
        [CloseAction.closeContext, CloseAction.closeBrowser,
         CloseAction.stopPlaywright] := by
  rcases r with ⟨p, b, c⟩
  cases p <;> cases b <;> cases c <;> decide

/-! ### The scripts' name bindings and step lists -/

/-- The names bound at module or `run_test` scope in each of the scripts
TC008, TC020, TC022, TC023 and TC028 (identical in all five): the imports
`import asyncio` and `from playwright import async_api`, the function
`run_test`, and the assignments to `pw`, `browser`, `context`, `page`,
`frame` and `elem`.  The name `expect` is not among them: no script imports
or defines it. -/
def scriptEnv : List String :=
  ["asyncio", "async_api", "run_test", "pw", "browser", "context",
   "page", "frame", "elem"]

/-- The shared prologue of every script's `try:` body: start Playwright,
launch the browser, create the context, open a page, go to /tasks, the
error-swallowing load-state waits, and the repeated goto to /tasks. -/
def prologueSteps : List Step :=
  [.startPlaywright, .launchBrowser, .newContext, .newPage,
   .goto "http://localhost:3003/tasks", .waitLoadState,
   .goto "http://localhost:3003/tasks"]

/-- The `try:` body of TC008 (SSE auto-reconnect): the prologue, the
navigation clicks of lines 52-109, the assertion block of lines 111-116,
and the final sleep. -/
def tc008Steps : List Step :=
  prologueSteps ++
  [.waitTimeout 3000, .click "html/body/div[2]/div/div/div/aside/nav/a",
   .waitTimeout 3000, .click "html/body/div[2]/div/div/div/aside/nav/a",
   .waitTimeout 3000, .click "html/body/div[2]/div/div/div/aside/nav/a",
   .waitTimeout 3000, .click "html/body/div[2]/header/div/div[1]/a",
   .goto "http://localhost:3003/dashboard",
   .waitTimeout 3000, .click "html/body/div[2]/div/div/div/div[2]/a[1]",
   .waitTimeout 3000, .click "html/body/div[3]/div/div/div/div[2]/a[1]",
   .goto "http://localhost:3003/",
   .waitTimeout 3000, .click "html/body/div[2]/div/div/div/aside/nav/a",
   .waitTimeout 3000, .click "html/body/div[2]/div/div/div/aside/nav/a",
   .waitTimeout 3000, .click "html/body/div[2]/header/div/div[1]/a",
   .assertVisible "SSE reconnected and receiving events"
     "Test case failed: the client did not auto-reconnect the SSE connection after the server-side close (expected a reconnect ~3s later). The UI did not show a reconnection/connected indicator nor a reconnection log entry indicating events resumed.",
   .sleepSecs 5]

/-- The `try:` body of TC020 (accessibility): the prologue, the palette and
form fills of lines 52-71, the assertion block of lines 76-79, and the final
sleep.  (In the source file the assertion block is surrounded by stray
triple-backtick fence lines at lines 75 and 80, so the file as written does
not even parse as Python; the steps model the statements as written.) -/
def tc020Steps : List Step :=
  prologueSteps ++
  [.waitTimeout 3000,
   .fill "html/body/div[4]/div/div[1]/input" "Create New Task",
   .waitTimeout 3000,
   .fill "html/body/div[4]/form/div[1]/input" "Accessibility test task",
   .waitTimeout 3000,
   .fill "html/body/div[4]/form/div[2]/textarea"
     "Accessibility keyboard navigation verification — ensure fields accept keyboard input and focus order is correct.",
   .waitTimeout 3000,
   .fill "html/body/div[4]/form/div[3]/input"
     "https://github.com/octocat/Hello-World",
   .assertVisible "Task Created Successfully"
     "Test case failed: The test attempted to create a task using keyboard-only interactions (command palette -> create dialog -> submit) and expected a 'Task Created Successfully' confirmation. The confirmation did not appear, indicating the keyboard flow, dialog submission, or success notification is not functioning or accessible.",
   .sleepSecs 5]

/-- The `try:` body of TC022 (SSE error/timeout-warning surfacing): the
prologue, the clicks of lines 52-91, and the final sleep.  There is no
assertion block anywhere in this script. -/
def tc022Steps : List Step :=
  prologueSteps ++
  [.waitTimeout 3000,
   .click "html/body/div[2]/div/main/div/div/div[2]/div/div/div[2]/a[3]",
   .waitTimeout 3000,
   .click "html/body/div[3]/div/main/div/div/div[2]/div/div/div[2]/a[3]",
   .waitTimeout 3000, .click "html/body/a",
   .waitTimeout 3000,
   .click "html/body/div[2]/div/main/div/div/div/div[2]/div[1]/div/div[1]/button[2]",
   .waitTimeout 3000,
   .click "html/body/div[2]/div/main/div/div/div/div[2]/div[1]/div/div[3]/div/div[2]/div/div/div[1]/div[1]/button",
   .waitTimeout 3000,
   .click "html/body/div[2]/div/main/div/div/div/div[2]/div[1]/div/div[3]/div/div[2]/div/div/div[1]/div[1]/button",
   .waitTimeout 3000,
   .click "html/body/div[2]/div/main/div/div/div/div[2]/div[2]/div/div[2]/button",
   .sleepSecs 5]

/-- The `try:` body of TC023 (authorization errors): the prologue, the
clicks and navigation of lines 52-82, the assertion block of lines 86-89,
and the final sleep. -/
def tc023Steps : List Step :=
  prologueSteps ++
  [.waitTimeout 3000,
   .click "html/body/div[2]/div/main/div/div/div[2]/div/div/div[2]/a[1]",
   .waitTimeout 3000,
   .click "html/body/div[3]/div/main/div/div/div[2]/div/div/div[2]/a[1]",
   .waitTimeout 3000, .click "html/body/a",
   .waitTimeout 3000,
   .click "html/body/div[2]/div/main/div/div/div/div[2]/div[2]/div/div[2]/button",
   .goto "http://localhost:3003/tasks/b15318d5-0dc6-4bf5-88c1-25735c673b74/changes",
   .waitTimeout 3000, .click "html/body/div[2]/div/div/div/div[2]/a[1]",
   .assertVisible "Permission denied — you do not have access to perform this action"
     "Test case failed: The test attempted to verify that triggering the Execute action (mock server returning 403) surfaces a clear, non-sensitive permission error toast/alert (e.g., 'Permission denied — you do not have access to perform this action') and that the action's loading state is cleared; the expected permission guidance was not displayed.",
   .sleepSecs 5]

/-- The `try:` body of TC028 (query invalidation): the prologue, the clicks
and form fills of lines 52-119, the assertion block of lines 123-126, and
the final sleep. -/
def tc028Steps : List Step :=
  prologueSteps ++
  [.waitTimeout 3000,
   .click "html/body/div[2]/div/main/div/div/div[2]/div/div/div[2]/a[3]",
   .waitTimeout 3000,
   .click "html/body/div[3]/div/main/div/div/div[2]/div/div/div[2]/a[3]",
   .waitTimeout 3000,
   .click "html/body/div[2]/div/main/div/div/div/div[2]/div[2]/div/div[2]/button",
   .waitTimeout 3000,
   .click "html/body/div[2]/div/main/div/div/div/div[1]/a",
   .waitTimeout 3000,
   .click "html/body/div[3]/div/main/div/div/div/div[1]/a",
   .waitTimeout 3000,
   .click "html/body/div[2]/div/div/div/aside/div[2]/div[2]/div/div/div/div/div[2]/a[1]",
   .waitTimeout 3000,
   .click "html/body/div[3]/div/main/div/div/div[2]/div/div/div[2]/a[1]",
   .waitTimeout 3000,
   .click "html/body/div[2]/header/div/div[2]/button[2]",
   .waitTimeout 3000,
   .fill "html/body/div[5]/form/div[1]/input" "E2E create task - cache test",
   .waitTimeout 3000,
   .fill "html/body/div[5]/form/div[2]/textarea"
     "End-to-end test task to validate TanStack Query cache invalidation/update after create mutation. Verify the new task appears in the tasks list without manual refresh.",
   .waitTimeout 3000,
   .fill "html/body/div[5]/form/div[3]/input" "https://github.com/test/e2e-repo",
   .waitTimeout 3000,
   .click "html/body/div[4]/form/div[7]/button[2]",
   .assertVisible "E2E create task - cache test"
     "Test case failed: The test attempted to verify that after creating a task the tasks list (TanStack Query cache) was invalidated/updated so the new task 'E2E create task - cache test' appears in the UI without a manual refresh, but the expected item was not found — indicating the cache update or UI refresh did not occur.",
   .sleepSecs 5]

/-! ### The Part 2 claims -/

/-- C8: none of the four scripts with a final assertion (TC008, TC020,
TC023, TC028) ever imports or defines the name `expect`; evaluating
`expect(...)` therefore raises `NameError`, which the surrounding
`except AssertionError:` handler does not catch — whatever the page shows
and whatever failure message the script carries — so no execution of any of
the four scripts ever completes `run_test` without an exception: the
assertion block can never report success. -/
theorem final_assertions_never_succeed :
    "expect" ∉ scriptEnv
    ∧ (∀ (visible : Bool) (failMsg : String),
        catchAssertionError (assertBlockBody scriptEnv visible) failMsg
          = some (.nameError "expect"))
    ∧ (∀ oracle : Nat → Bool, (runTest scriptEnv oracle tc008Steps).2.1 ≠ none)
    ∧ (∀ oracle : Nat → Bool, (runTest scriptEnv oracle tc020Steps).2.1 ≠ none)
    ∧ (∀ oracle : Nat → Bool, (runTest scriptEnv oracle tc023Steps).2.1 ≠ none)
    ∧ (∀ oracle : Nat → Bool, (runTest scriptEnv oracle tc028Steps).2.1 ≠ none) := by
  have hmem : "expect" ∉ scriptEnv := by decide
  refine ⟨hmem, fun visible failMsg => ?_, fun oracle => ?_, fun oracle => ?_,
    fun oracle => ?_, fun oracle => ?_⟩
  · simp [assertBlockBody, catchAssertionError, hmem]
  all_goals
    exact runSteps_never_ok scriptEnv oracle _ 0 Resources.init (by decide)

/-- C9: the `try:` body of TC022 contains no assertion step at all, so on
every execution in which the navigation and click steps succeed, `run_test`
completes without an exception — independently of whether any
timeout_warning or error event was emitted, delivered, or surfaced in the
UI. -/
theorem tc022_has_no_assertion_and_always_passes :
    (∀ s ∈ tc022Steps, s.isAssert = false)
    ∧ (∀ oracle : Nat → Bool,
        (∀ j, j < tc022Steps.length → oracle j = true) →
        (runTest scriptEnv oracle tc022Steps).2.1 = none) := by
  constructor
  · decide
  · intro oracle hok
    exact runSteps_all_ok scriptEnv oracle tc022Steps 0 Resources.init
      (by simpa using hok) (by decide)

theorem tc022_always_passes_witness :
    (runTest scriptEnv (fun _ => true) tc022Steps).2.1 = none :=
  tc022_has_no_assertion_and_always_passes.2 (fun _ => true) (fun _ _ => rfl)

/-- C10: for every script body and every execution — including every one in
which an earlier step raises an exception — the `finally:` block closes each
browser resource that was successfully created exactly once (and an
uncreated one not at all), in the fixed order context, browser, Playwright
instance. -/
theorem finally_closes_each_created_resource_once
    (env : List String) (oracle : Nat → Bool) (steps : List Step) :
    ((runTest env oracle steps).2.2).count .closeContext
        = (if (runTest env oracle steps).1.context then 1 else 0)
    ∧ ((runTest env oracle steps).2.2).count .closeBrowser
        = (if (runTest env oracle steps).1.browser then 1 else 0)
    ∧ ((runTest env oracle steps).2.2).count .stopPlaywright
        = (if (runTest env oracle steps).1.pw then 1 else 0)
    ∧ ((runTest env oracle steps).2.2).Sublist
        [CloseAction.closeContext, CloseAction.closeBrowser,
         CloseAction.stopPlaywright] :=
  finallyBlock_count ((runTest env oracle steps).1)

end DashAgent
